import Mathlib

/-!
Verification of the replication controller core
(`pkg/controller/replication_controller.go`).

The Go code is shallowly embedded: pure fragments become Lean functions;
calls into external capabilities (the API store's list/update/create/delete,
`api.Scheme.Convert`, `validation.ValidatePodName`, `api.IsPodReady` — all
defined outside this file's source) are passed in as explicit function
parameters, so a reconcile is a pure function of its inputs and the oracle
answers.  Go `int` counters that the surrounding API layer validates as
non-negative (`spec.replicas`, `status.replicas`) are modelled as `Nat`.
-/

namespace RepCtrl

/-- PodPhase as used by the controller: the five phases of the pod data
model (`api.PodPending`, `api.PodRunning`, `api.PodSucceeded`,
`api.PodFailed`, `api.PodUnknown`). -/
inductive PodPhase
  | pending
  | running
  | succeeded
  | failed
  | unknown
deriving DecidableEq, Repr

/-- Pod, restricted to the fields the controller reads: `Name`,
`Spec.Host`, `Status.Phase`, and readiness.  `api.IsPodReady` lives in
`pkg/api` (outside this source tree); following the data model, readiness
is carried as a boolean field and `IsPodReady` reads it. -/
structure Pod where
  name : String
  host : String
  phase : PodPhase
  ready : Bool
deriving DecidableEq, Repr

/-- IsPodReady, modelled as the pod's readiness boolean (the real function,
in `pkg/api`, derives it from the pod's conditions). -/
def IsPodReady (p : Pod) : Bool := p.ready

/-- ReplicationController, restricted to the fields the controller reads
or writes: identity, `ResourceVersion`, `Spec.Replicas`, `Spec.Selector`,
the template's labels/annotations and (opaque) pod spec payload, and
`Status.Replicas`. -/
structure RC where
  ns : String
  name : String
  resourceVersion : String
  specReplicas : Nat
  selector : List (String × String)
  templateLabels : List (String × String)
  templateAnnotations : List (String × String)
  templateSpec : String
  statusReplicas : Nat
deriving DecidableEq, Repr

/-- filterActivePods: retain pods whose phase is neither `PodSucceeded`
nor `PodFailed` (source lines 191-200). -/
def filterActivePods (pods : List Pod) : List Pod :=
  pods.filter (fun p => p.phase ≠ PodPhase.succeeded ∧ p.phase ≠ PodPhase.failed)

/-- The phase ranking used by `activePods.Less`: the Go map
`m := map[api.PodPhase]int{PodPending: 0, PodUnknown: 1, PodRunning: 2}`;
a Go map lookup on a missing key yields the zero value, so every phase
outside the map ranks 0. -/
def phaseKey : PodPhase → Nat
  | PodPhase.pending => 0
  | PodPhase.unknown => 1
  | PodPhase.running => 2
  | _ => 0

/-- activePods.Less (source lines 207-222), the comparison used to sort
candidates before deletion.  The host check is exactly the source's
one-directional test. -/
def podLess (a b : Pod) : Bool :=
  if a.host = "" ∧ b.host ≠ "" then
    true
  else if phaseKey a.phase ≠ phaseKey b.phase then
    decide (phaseKey a.phase < phaseKey b.phase)
  else if ¬ IsPodReady a ∧ IsPodReady b then
    true
  else
    false

/-- Insertion of one element into an already-placed prefix held in
reverse (head = rightmost element), exactly Go insertion sort's inner
loop: swap the new element leftwards while `Less(new, prev)` holds, stop
at the first predecessor for which it fails. -/
def insertRevAux (x : Pod) : List Pod → List Pod
  | [] => [x]
  | y :: ys => if podLess x y then y :: insertRevAux x ys else x :: y :: ys

/-- Outer loop of insertion sort, carrying the placed prefix in reverse. -/
def insertionSortRev (acc : List Pod) : List Pod → List Pod
  | [] => acc
  | p :: ps => insertionSortRev (insertRevAux p acc) ps

/-- sortPods models `sort.Sort(activePods(filteredList))`: Go's
`sort.Sort` runs plain insertion sort (this algorithm exactly) on any
slice of fewer than 13 elements, and for longer slices produces some
permutation arranged by the same `Less`. -/
def sortPods (l : List Pod) : List Pod :=
  (insertionSortRev [] l).reverse

/-- Outcome of one reconcile (`syncReplicationController`): the number of
`createReplica` calls issued, the pod names passed to `deletePod` (in
index order), the RC written back by the status update if one was issued,
and the error returned to the caller. -/
structure SyncResult where
  creates : Nat
  deletes : List String
  statusWrite : Option RC
  err : Option String
deriving DecidableEq, Repr

/-- syncReplicationController (source lines 224-270).  The store calls are
oracles: `listResult` is the answer of `Pods(ns).List` for the RC's
selector, `updateResult` the answer of `ReplicationControllers(ns).Update`
on the RC the code would write, `deleteResult` the answer of each
`deletePod`.  As in the source, the result of `deletePod` is discarded
inside the fan-out goroutine and `createReplica` returns nothing, so
neither can reach the returned error. -/
def syncReplicationController (listResult : Except String (List Pod))
    (updateResult : RC → Except String RC)
    (deleteResult : String → Except String Unit)
    (controller : RC) : SyncResult :=
  match listResult with
  | Except.error e => ⟨0, [], none, some e⟩
  | Except.ok pods =>
    let filteredList := filterActivePods pods
    let numActivePods := filteredList.length
    let diff : Int := (numActivePods : Int) - (controller.specReplicas : Int)
    let creates : Nat := if diff < 0 then (-diff).toNat else 0
    let deletes : List String :=
      if diff > 0 then ((sortPods filteredList).take diff.toNat).map Pod.name else []
    let _ := deletes.map deleteResult
    if controller.statusReplicas ≠ numActivePods then
      let written := { controller with statusReplicas := numActivePods }
      match updateResult written with
      | Except.error e => ⟨creates, deletes, some written, some e⟩
      | Except.ok _ => ⟨creates, deletes, some written, none⟩
    else
      ⟨creates, deletes, none, none⟩

/-- Fields of the pod object `createReplica` constructs before handing it
to `Pods(ns).Create`: exactly the fields the source sets (labels,
annotations, `GenerateName`, and the converted spec); everything else is
left to the store. -/
structure NewPod where
  labels : List (String × String)
  annotations : List (String × String)
  generateName : String
  spec : String
deriving DecidableEq, Repr

/-- Outcome of `createReplica`: the pod submitted to the store (none when
the call abandoned creation), and whether a `failedCreate` event was
emitted.  The Go function returns nothing, so there is no error channel. -/
structure CreateResult where
  created : Option NewPod
  failedCreateEvent : Bool
deriving DecidableEq, Repr

/-- AsSelector().Empty() on a label set: the selector built from a label
set has one requirement per label, so it is empty exactly when the label
set is. -/
def selectorOfLabelsEmpty (labels : List (String × String)) : Bool :=
  labels.isEmpty

/-- RealPodControl.createReplica (source lines 66-101).  External calls
are oracles: `validatePodName` is `validation.ValidatePodName` (from
`pkg/api/validation`), `convert` is `api.Scheme.Convert` on the template's
pod spec, `createPod` is `Pods(ns).Create`. -/
def createReplica (validatePodName : String → Bool)
    (convert : String → Except String String)
    (createPod : NewPod → Except String NewPod)
    (controller : RC) : CreateResult :=
  let desiredLabels := controller.templateLabels
  let desiredAnnotations := controller.templateAnnotations
  let prefixStr :=
    if validatePodName (controller.name ++ "-") then controller.name ++ "-"
    else controller.name
  match convert controller.templateSpec with
  | Except.error _ => ⟨none, false⟩
  | Except.ok podSpec =>
    let pod : NewPod := ⟨desiredLabels, desiredAnnotations, prefixStr, podSpec⟩
    if selectorOfLabelsEmpty pod.labels then ⟨none, false⟩
    else
      match createPod pod with
      | Except.error _ => ⟨some pod, true⟩
      | Except.ok _ => ⟨some pod, false⟩

/-- Typed watch events (`pkg/watch`): `Added`, `Modified`, `Deleted`,
`Error`. -/
inductive EventType
  | added
  | modified
  | deleted
  | error
deriving DecidableEq, Repr

/-- The object carried by a watch event, as the watch loop discriminates
it: a ReplicationController, an `api.Status` (whose `Status` field is
compared against `api.StatusFailure`, the string "Failure"), or anything
else. -/
inductive WatchObject
  | rcObj (rc : RC)
  | statusObj (status : String)
  | other
deriving DecidableEq, Repr

/-- One watch event. -/
structure WatchEvent where
  type : EventType
  object : WatchObject
deriving DecidableEq, Repr

/-- Result of handling one watch event: the new resource-version cursor
and the RC handed to the sync handler, if any. -/
structure WatchStepResult where
  cursor : String
  synced : Option RC
deriving DecidableEq, Repr

/-- One iteration of the event branch of `watchControllers` (source lines
155-185): an `Error`-type event clears the cursor; otherwise an RC object
advances the cursor to its resourceVersion and is synced (whatever the
event kind); a `Status` object with `Status == "Failure"` clears the
cursor; any other object leaves the cursor unchanged. -/
def watchStep (resourceVersion : String) (event : WatchEvent) : WatchStepResult :=
  if event.type = EventType.error then
    ⟨"", none⟩
  else
    match event.object with
    | WatchObject.rcObj rc => ⟨rc.resourceVersion, some rc⟩
    | WatchObject.statusObj s =>
      if s = "Failure" then ⟨"", none⟩ else ⟨resourceVersion, none⟩
    | WatchObject.other => ⟨resourceVersion, none⟩

/-- Concrete fixture: an assigned, Pending, not-ready pod. -/
def podAssignedPending : Pod := ⟨"a", "node1", PodPhase.pending, false⟩

/-- Concrete fixture: an unassigned, Running, ready pod. -/
def podUnassignedRunning : Pod := ⟨"b", "", PodPhase.running, true⟩

/-- Concrete fixture: a pod in the terminal phase Succeeded. -/
def podSucceededEx : Pod := ⟨"x", "", PodPhase.succeeded, false⟩

/-- Concrete fixture: a pod in the terminal phase Failed. -/
def podFailedEx : Pod := ⟨"y", "node2", PodPhase.failed, true⟩

/-- Concrete fixture: an RC wanting 1 replica whose status already records
2 active pods. -/
def rcScaleDown : RC :=
  ⟨"web", "frontend", "v1", 1, [("app", "frontend")], [("app", "frontend")], [], "tpl", 2⟩

/-- Concrete fixture: an RC wanting 1 replica with stale status 0. -/
def rcStatusStale : RC :=
  ⟨"web", "frontend", "v1", 1, [("app", "frontend")], [("app", "frontend")], [], "tpl", 0⟩

/-- Concrete fixture: an RC whose template carries no labels. -/
def rcNoLabels : RC := ⟨"web", "frontend", "v1", 1, [], [], [], "tpl", 0⟩

/-- Update oracle that always succeeds. -/
def okUpdate : RC → Except String RC := fun r => Except.ok r

/-- Delete oracle that always succeeds. -/
def okDelete : String → Except String Unit := fun _ => Except.ok ()

theorem insertRevAux_perm (x : Pod) (l : List Pod) :
    List.Perm (insertRevAux x l) (x :: l) := by
  induction l with
  | nil => simp [insertRevAux]
  | cons y ys ih =>
    simp only [insertRevAux]
    split
    · exact (ih.cons y).trans (List.Perm.swap x y ys)
    · exact List.Perm.refl _

theorem insertionSortRev_perm (l : List Pod) :
    ∀ acc, List.Perm (insertionSortRev acc l) (acc ++ l) := by
  induction l with
  | nil => intro acc; simp [insertionSortRev]
  | cons p ps ih =>
    intro acc
    have h1 := ih (insertRevAux p acc)
    have h2 := (insertRevAux_perm p acc).append_right ps
    have h3 : List.Perm (acc ++ p :: ps) (p :: (acc ++ ps)) := List.perm_middle
    exact h1.trans (h2.trans h3.symm)

theorem sortPods_perm (l : List Pod) : List.Perm (sortPods l) l := by
  have h := insertionSortRev_perm l []
  simpa [sortPods] using (List.reverse_perm (insertionSortRev [] l)).trans h

theorem sortPods_length (l : List Pod) : (sortPods l).length = l.length :=
  (sortPods_perm l).length_eq

theorem sortPods_mem {x : Pod} {l : List Pod} (h : x ∈ sortPods l) : x ∈ l :=
  (sortPods_perm l).mem_iff.mp h

/-- C2: the claim calls `activePods.Less` a strict weak order in which an
unassigned pod precedes an assigned one and the phase step applies only
when the host step ties.  The code's host check is one-directional (it
returns true when `i` is unassigned and `j` assigned, but does not return
false in the converse case), so for the assigned Pending pod `a` and the
unassigned Running pod `b` both `Less(a, b)` (via the phase step, which
runs even though the hosts differ) and `Less(b, a)` (via the host step)
hold.  Asymmetry fails, so the relation is not a strict weak order; this
contradicts the comments in the source ("Unassigned < assigned",
"unscheduled < scheduled"). -/
theorem c2_less_not_asymmetric :
    podLess podAssignedPending podUnassignedRunning = true ∧
    podLess podUnassignedRunning podAssignedPending = true := by
  decide

/-- C1: the claim says a reconcile deleting k pods never preserves an
unassigned pod while deleting an assigned one.  At this input the RC wants
1 replica and the active pods are `[b, a]` with `b` unassigned/Running and
`a` assigned/Pending; the sort (Go runs plain insertion sort at this size)
yields `[a, b]` because the one-directional host check lets the phase step
fire, so the reconcile deletes the assigned pod `a` and preserves the
unassigned pod `b` — contradicting the claim and the source's own comment
that the sort "ensures that we delete pods in the earlier stages whenever
possible" with "unscheduled < scheduled". -/
theorem c1_assigned_deleted_over_unassigned :
    (syncReplicationController (Except.ok [podUnassignedRunning, podAssignedPending])
        okUpdate okDelete rcScaleDown).deletes = [podAssignedPending.name] ∧
    podAssignedPending.host ≠ "" ∧
    podUnassignedRunning.host = "" ∧
    rcScaleDown.specReplicas = 1 ∧
    filterActivePods [podUnassignedRunning, podAssignedPending] =
      [podUnassignedRunning, podAssignedPending] := by
  decide

/-- C10: the Go phase map assigns key 0 to every phase outside
\x7bPending, Unknown, Running\x7d (a missing map key yields the zero
value), so Succeeded and Failed rank exactly like Pending; whenever the
two phase keys tie — in particular for any two such out-of-map phases, or
one of them against Pending — the comparison reduces to the host step
followed by the readiness step.  The comparison is a total function over
all pods, active or not. -/
theorem c10_phase_default_and_fallthrough :
    phaseKey PodPhase.succeeded = 0 ∧
    phaseKey PodPhase.failed = 0 ∧
    phaseKey PodPhase.pending = 0 ∧
    ∀ a b : Pod, phaseKey a.phase = phaseKey b.phase →
      podLess a b =
        (decide (a.host = "" ∧ b.host ≠ "") || decide (¬ IsPodReady a ∧ IsPodReady b)) := by
  refine ⟨rfl, rfl, rfl, ?_⟩
  intro a b h
  by_cases h1 : a.host = "" ∧ b.host ≠ ""
  · simp [podLess, h1.1, h1.2]
  · by_cases h2 : ¬ IsPodReady a ∧ IsPodReady b
    · simp [podLess, h1, h, h2]
    · simp [podLess, h1, h, h2]

/-- C10 witness: the fall-through component of the theorem applied to a
Succeeded pod against a Failed pod, whose phase keys are both 0. -/
theorem c10_phase_default_and_fallthrough_witness :
    podLess podSucceededEx podFailedEx =
      (decide (podSucceededEx.host = "" ∧ podFailedEx.host ≠ "") ||
        decide (¬ IsPodReady podSucceededEx ∧ IsPodReady podFailedEx)) :=
  c10_phase_default_and_fallthrough.2.2.2 podSucceededEx podFailedEx (by decide)

theorem sync_ok_creates (pods : List Pod) (upd : RC → Except String RC)
    (del : String → Except String Unit) (c : RC) :
    (syncReplicationController (Except.ok pods) upd del c).creates =
      c.specReplicas - (filterActivePods pods).length := by
  unfold syncReplicationController
  dsimp only
  split
  · split
    · dsimp only; split <;> omega
    · dsimp only; split <;> omega
  · dsimp only; split <;> omega

theorem sync_ok_deletes (pods : List Pod) (upd : RC → Except String RC)
    (del : String → Except String Unit) (c : RC) :
    (syncReplicationController (Except.ok pods) upd del c).deletes =
      if c.specReplicas < (filterActivePods pods).length
      then ((sortPods (filterActivePods pods)).take
             ((filterActivePods pods).length - c.specReplicas)).map Pod.name
      else [] := by
  unfold syncReplicationController
  dsimp only
  have htn : (((filterActivePods pods).length : Int) - (c.specReplicas : Int)).toNat =
      (filterActivePods pods).length - c.specReplicas := by omega
  split
  · split
    · dsimp only
      rw [htn]
      split
      · rw [if_pos (by omega)]
      · rw [if_neg (by omega)]
    · dsimp only
      rw [htn]
      split
      · rw [if_pos (by omega)]
      · rw [if_neg (by omega)]
  · dsimp only
    rw [htn]
    split
    · rw [if_pos (by omega)]
    · rw [if_neg (by omega)]

theorem sync_ok_statusWrite (pods : List Pod) (upd : RC → Except String RC)
    (del : String → Except String Unit) (c : RC) :
    (syncReplicationController (Except.ok pods) upd del c).statusWrite =
      if c.statusReplicas ≠ (filterActivePods pods).length
      then some { c with statusReplicas := (filterActivePods pods).length }
      else none := by
  unfold syncReplicationController
  dsimp only
  by_cases h : c.statusReplicas ≠ (filterActivePods pods).length
  · rw [if_pos h, if_pos h]
    cases hu : upd { c with statusReplicas := (filterActivePods pods).length } <;> rfl
  · rw [if_neg h, if_neg h]

theorem sync_ok_err (pods : List Pod) (upd : RC → Except String RC)
    (del : String → Except String Unit) (c : RC) :
    (syncReplicationController (Except.ok pods) upd del c).err =
      if c.statusReplicas ≠ (filterActivePods pods).length
      then (match upd { c with statusReplicas := (filterActivePods pods).length } with
            | Except.error e => some e
            | Except.ok _ => none)
      else none := by
  unfold syncReplicationController
  dsimp only
  by_cases h : c.statusReplicas ≠ (filterActivePods pods).length
  · rw [if_pos h, if_pos h]
    cases hu : upd { c with statusReplicas := (filterActivePods pods).length } <;> rfl
  · rw [if_neg h, if_neg h]

/-- C3: a reconcile that observed `pods` issues exactly
`desired - |active|` creates (Nat subtraction, i.e. `max(0, ...)`) and
exactly `|active| - desired` deletes, and when the observed active count
equals the desired count it issues no actuator calls at all. -/
theorem c3_actuation_quota :
    ∀ (pods : List Pod) (upd : RC → Except String RC)
      (del : String → Except String Unit) (controller : RC),
      (syncReplicationController (Except.ok pods) upd del controller).creates =
        controller.specReplicas - (filterActivePods pods).length ∧
      (syncReplicationController (Except.ok pods) upd del controller).deletes.length =
        (filterActivePods pods).length - controller.specReplicas ∧
      ((filterActivePods pods).length = controller.specReplicas →
        (syncReplicationController (Except.ok pods) upd del controller).creates = 0 ∧
        (syncReplicationController (Except.ok pods) upd del controller).deletes = []) := by
  intro pods upd del controller
  have hc := sync_ok_creates pods upd del controller
  have hd := sync_ok_deletes pods upd del controller
  refine ⟨hc, ?_, ?_⟩
  · rw [hd]
    split
    next h =>
      rw [List.length_map, List.length_take, sortPods_length]
      omega
    next h =>
      simp only [List.length_nil]
      omega
  · intro h
    refine ⟨by rw [hc]; omega, ?_⟩
    rw [hd, if_neg (by omega)]

/-- C3 witness: the no-op component of the quota theorem at an RC whose
desired count equals the single observed active pod. -/
theorem c3_actuation_quota_witness :
    (syncReplicationController (Except.ok [podUnassignedRunning]) okUpdate okDelete
      rcScaleDown).creates = 0 ∧
    (syncReplicationController (Except.ok [podUnassignedRunning]) okUpdate okDelete
      rcScaleDown).deletes = [] :=
  (c3_actuation_quota [podUnassignedRunning] okUpdate okDelete rcScaleDown).2.2 (by decide)

/-- C4: `filterActivePods` retains exactly the pods whose phase is
neither Succeeded nor Failed, and every pod name a reconcile passes to
`deletePod` belongs to a listed pod whose phase is neither Succeeded nor
Failed; since the active count is the length of the filtered list, no
terminal pod is counted toward it either. -/
theorem c4_terminal_pods_untouched :
    (∀ (pods : List Pod) (p : Pod),
      p ∈ filterActivePods pods ↔
        p ∈ pods ∧ p.phase ≠ PodPhase.succeeded ∧ p.phase ≠ PodPhase.failed) ∧
    (∀ (pods : List Pod) (upd : RC → Except String RC)
       (del : String → Except String Unit) (controller : RC) (nm : String),
      nm ∈ (syncReplicationController (Except.ok pods) upd del controller).deletes →
      ∃ p, p ∈ pods ∧ p.name = nm ∧
        p.phase ≠ PodPhase.succeeded ∧ p.phase ≠ PodPhase.failed) := by
  have hmem : ∀ (pods : List Pod) (p : Pod),
      p ∈ filterActivePods pods ↔
        p ∈ pods ∧ p.phase ≠ PodPhase.succeeded ∧ p.phase ≠ PodPhase.failed := by
    intro pods p
    simp [filterActivePods, List.mem_filter]
  refine ⟨hmem, ?_⟩
  intro pods upd del controller nm h
  rw [sync_ok_deletes] at h
  by_cases hlt : controller.specReplicas < (filterActivePods pods).length
  · rw [if_pos hlt] at h
    rcases List.mem_map.mp h with ⟨p, hp, hname⟩
    have hp2 : p ∈ sortPods (filterActivePods pods) := List.take_subset _ _ hp
    have hp3 : p ∈ filterActivePods pods := sortPods_mem hp2
    rcases (hmem pods p).mp hp3 with ⟨hmem2, hs, hf⟩
    exact ⟨p, hmem2, hname, hs, hf⟩
  · rw [if_neg hlt] at h
    simp at h

/-- C4 witness: both components applied at a concrete pod list whose
reconcile deletes pod "a". -/
theorem c4_terminal_pods_untouched_witness :
    (podAssignedPending ∈ filterActivePods [podUnassignedRunning, podAssignedPending] ↔
      podAssignedPending ∈ [podUnassignedRunning, podAssignedPending] ∧
      podAssignedPending.phase ≠ PodPhase.succeeded ∧
      podAssignedPending.phase ≠ PodPhase.failed) ∧
    (∃ p, p ∈ [podUnassignedRunning, podAssignedPending] ∧ p.name = "a" ∧
      p.phase ≠ PodPhase.succeeded ∧ p.phase ≠ PodPhase.failed) :=
  ⟨c4_terminal_pods_untouched.1 [podUnassignedRunning, podAssignedPending] podAssignedPending,
   c4_terminal_pods_untouched.2 [podUnassignedRunning, podAssignedPending] okUpdate okDelete
     rcScaleDown "a" (by decide)⟩

/-- C5: a reconcile issues a status update exactly when the active count
observed at entry differs from the RC snapshot's `status.replicas`, and
the RC it writes carries that observed count (the counts are measured
before the creates and deletes of the pass; the commanded target
`spec.replicas` plays no role). -/
theorem c5_status_update :
    ∀ (pods : List Pod) (upd : RC → Except String RC)
      (del : String → Except String Unit) (controller : RC),
      ((syncReplicationController (Except.ok pods) upd del controller).statusWrite.isSome ↔
        (filterActivePods pods).length ≠ controller.statusReplicas) ∧
      (∀ rcW,
        (syncReplicationController (Except.ok pods) upd del controller).statusWrite = some rcW →
        rcW.statusReplicas = (filterActivePods pods).length) := by
  intro pods upd del controller
  have hsw := sync_ok_statusWrite pods upd del controller
  constructor
  · rw [hsw]
    by_cases h : controller.statusReplicas ≠ (filterActivePods pods).length
    · rw [if_pos h]
      simp only [Option.isSome_some, true_iff]
      exact fun e => h e.symm
    · rw [if_neg h]
      simp only [Option.isSome_none, Bool.false_eq_true, false_iff, ne_eq, not_not]
      omega
  · intro rcW hW
    rw [hsw] at hW
    by_cases h : controller.statusReplicas ≠ (filterActivePods pods).length
    · rw [if_pos h] at hW
      have := Option.some.inj hW
      subst this
      rfl
    · rw [if_neg h] at hW
      simp at hW

/-- C5 witness: the written-value component at an RC with stale status 0
observing one active pod. -/
theorem c5_status_update_witness :
    ({ rcStatusStale with statusReplicas := 1 } : RC).statusReplicas =
      (filterActivePods [podUnassignedRunning]).length :=
  (c5_status_update [podUnassignedRunning] okUpdate okDelete rcStatusStale).2
    { rcStatusStale with statusReplicas := 1 } (by decide)

/-- C6: when converting the template spec fails, or the template label
set (hence the constructed pod's label set) is empty, `createReplica`
submits no pod to the store and emits no `failedCreate` event; the Go
function returns nothing, so no error is raised in either case. -/
theorem c6_create_refusal :
    ∀ (validatePodName : String → Bool) (convert : String → Except String String)
      (createPod : NewPod → Except String NewPod) (controller : RC),
      ((∃ e, convert controller.templateSpec = Except.error e) ∨
        controller.templateLabels = []) →
      createReplica validatePodName convert createPod controller = ⟨none, false⟩ := by
  intro v convert cp controller h
  unfold createReplica
  dsimp only
  rcases h with ⟨e, he⟩ | hl
  · rw [he]
  · cases hc : convert controller.templateSpec with
    | error e => rfl
    | ok s => simp [selectorOfLabelsEmpty, hl]

/-- C6 witness: the refusal theorem at an RC whose template carries no
labels, with a successful conversion oracle. -/
theorem c6_create_refusal_witness :
    createReplica (fun _ => true) (fun s => Except.ok s) (fun p => Except.ok p)
      rcNoLabels = ⟨none, false⟩ :=
  c6_create_refusal (fun _ => true) (fun s => Except.ok s) (fun p => Except.ok p)
    rcNoLabels (Or.inr rfl)

/-- C7: handling one watch event, in the order the code checks the cases:
an `Error`-type event resets the cursor to the empty string and syncs
nothing; otherwise an RC object sets the cursor to that RC's
resourceVersion (and the RC is synced, whatever the event kind), a
`Status` object with failure status resets the cursor, and any other
object (including a non-failure `Status`) leaves the cursor unchanged. -/
theorem c7_cursor_management :
    ∀ (cursor : String) (event : WatchEvent),
      (event.type = EventType.error → watchStep cursor event = ⟨"", none⟩) ∧
      (event.type ≠ EventType.error →
        (∀ rc, event.object = WatchObject.rcObj rc →
          watchStep cursor event = ⟨rc.resourceVersion, some rc⟩) ∧
        (∀ s, event.object = WatchObject.statusObj s → s = "Failure" →
          watchStep cursor event = ⟨"", none⟩) ∧
        (∀ s, event.object = WatchObject.statusObj s → s ≠ "Failure" →
          watchStep cursor event = ⟨cursor, none⟩) ∧
        (event.object = WatchObject.other → watchStep cursor event = ⟨cursor, none⟩)) := by
  intro cursor event
  constructor
  · intro h
    simp [watchStep, h]
  · intro h
    refine ⟨?_, ?_, ?_, ?_⟩
    · intro rc hobj
      simp [watchStep, h, hobj]
    · intro s hobj hs
      simp [watchStep, h, hobj, hs]
    · intro s hobj hs
      simp [watchStep, h, hobj, hs]
    · intro hobj
      simp [watchStep, h, hobj]

/-- C7 witness: the error-event component at cursor "v42". -/
theorem c7_cursor_management_witness :
    watchStep "v42" ⟨EventType.error, WatchObject.other⟩ = ⟨"", none⟩ :=
  (c7_cursor_management "v42" ⟨EventType.error, WatchObject.other⟩).1 rfl

/-- C8: the reconcile result does not depend on the answers of the
deletePod calls (the source discards them, and createReplica returns
nothing), and the reconcile returns an error exactly when the pod list
call fails or when a status update was issued and failed. -/
theorem c8_error_propagation :
    ∀ (listResult : Except String (List Pod)) (upd : RC → Except String RC)
      (d d₂ : String → Except String Unit) (controller : RC),
      syncReplicationController listResult upd d controller =
        syncReplicationController listResult upd d₂ controller ∧
      ((syncReplicationController listResult upd d controller).err ≠ none ↔
        (∃ e, listResult = Except.error e) ∨
        (∃ pods, listResult = Except.ok pods ∧
          controller.statusReplicas ≠ (filterActivePods pods).length ∧
          ∃ e, upd { controller with statusReplicas := (filterActivePods pods).length } =
            Except.error e)) := by
  intro listResult upd d d₂ controller
  constructor
  · cases listResult <;> rfl
  · cases listResult with
    | error e => simp [syncReplicationController]
    | ok pods =>
      rw [sync_ok_err]
      by_cases h : controller.statusReplicas ≠ (filterActivePods pods).length
      · rw [if_pos h]
        cases hu : upd { controller with statusReplicas := (filterActivePods pods).length } with
        | error e => simp [hu, h]
        | ok r => simp [hu, h]
      · rw [if_neg h]
        simp [h]

/-- C8 witness: the error characterization applied to a failing list call. -/
theorem c8_error_propagation_witness :
    (syncReplicationController (Except.error "boom") okUpdate okDelete rcScaleDown).err ≠
      none :=
  ((c8_error_propagation (Except.error "boom") okUpdate okDelete okDelete rcScaleDown).2).mpr
    (Or.inl ⟨"boom", rfl⟩)

/-- C9: whenever a reconcile writes an RC back to the store, the written
object agrees with the snapshot it received on every field other than
`status.replicas`.  The controller performs no other RC mutation: the
only store operations the embedded code issues are pod creates, pod
deletes and this status update — it never creates an RC. -/
theorem c9_status_only_mutation :
    ∀ (listResult : Except String (List Pod)) (upd : RC → Except String RC)
      (del : String → Except String Unit) (controller rcW : RC),
      (syncReplicationController listResult upd del controller).statusWrite = some rcW →
      rcW.ns = controller.ns ∧ rcW.name = controller.name ∧
      rcW.resourceVersion = controller.resourceVersion ∧
      rcW.specReplicas = controller.specReplicas ∧
      rcW.selector = controller.selector ∧
      rcW.templateLabels = controller.templateLabels ∧
      rcW.templateAnnotations = controller.templateAnnotations ∧
      rcW.templateSpec = controller.templateSpec ∧
      rcW = { controller with statusReplicas := rcW.statusReplicas } := by
  intro listResult upd del controller rcW h
  cases listResult with
  | error e => simp [syncReplicationController] at h
  | ok pods =>
    rw [sync_ok_statusWrite] at h
    by_cases hne : controller.statusReplicas ≠ (filterActivePods pods).length
    · rw [if_pos hne] at h
      have heq := Option.some.inj h
      subst heq
      exact ⟨rfl, rfl, rfl, rfl, rfl, rfl, rfl, rfl, rfl⟩
    · rw [if_neg hne] at h
      simp at h

/-- C9 witness: the frame equality at a concrete reconcile that writes
status 1. -/
theorem c9_status_only_mutation_witness :
    ({ rcStatusStale with statusReplicas := 1 } : RC) =
      { rcStatusStale with statusReplicas :=
          ({ rcStatusStale with statusReplicas := 1 } : RC).statusReplicas } :=
  (c9_status_only_mutation (Except.ok [podUnassignedRunning]) okUpdate okDelete
    rcStatusStale { rcStatusStale with statusReplicas := 1 } (by decide)).2.2.2.2.2.2.2.2

end RepCtrl
